import Mathlib

/-!
Shallow embedding of the wise-task-ai Go server's Qdrant client
(`server/internal/qdrantservice/qdrant_connection.go`) and dual-error
facility (`server/internal/errors/dual_error.go`).

The HTTP stack is modelled as an oracle `Net : HttpRequest → HttpOutcome`;
`Search` and `CheckHealth` are state-passing translations of the Go
functions that additionally return the ordered list of HTTP requests they
issued, so that temporal claims (request counts, ordering) are statable.
JSON response bodies are modelled as parsed `Json` trees; the decoders
below mirror `encoding/json` unmarshalling into the concrete Go structs
(missing key → zero value, `null` → zero value, type mismatch → error,
unknown keys ignored).  JSON numbers are modelled as integers: the only
float64 field (`score`) is never computed with by the code under study.
-/

namespace WiseTask

/-- Parsed JSON values.  Numbers carry an `Int`; see the file header. -/
inductive Json where
  | null : Json
  | str : String → Json
  | num : Int → Json
  | arr : List Json → Json
  | obj : List (String × Json) → Json
deriving Repr

/-- Environment lookup, modelling `os.Getenv` (unset variables read ""). -/
abbrev EnvMap := String → String

inductive HttpMethod where
  | get : HttpMethod
  | post : HttpMethod
deriving Repr, DecidableEq

/-- An HTTP request as the Go client builds it: method, URL, headers, and
the marshalled JSON body (if any). -/
structure HttpRequest where
  method : HttpMethod
  url : String
  headers : List (String × String)
  body : Option Json

/-- Outcome of one `http.DefaultClient.Do` call: a transport error or a
response whose body is the parsed JSON tree. -/
inductive HttpOutcome where
  | transportError : String → HttpOutcome
  | response : Json → HttpOutcome

/-- The network oracle: what each issued request comes back with. -/
abbrev Net := HttpRequest → HttpOutcome

/-! ### The Go structs of `qdrant_connection.go` -/

/-- Go struct `qdrantPayload`: tags `title`, `source`, `chunk_index`, `text`. -/
structure qdrantPayload where
  title : String
  source : String
  chunkIndex : Int
  text : String
deriving Repr, DecidableEq

/-- Go struct `qdrantResult`: tags `id`, `score`, `payload`. -/
structure qdrantResult where
  id : Int
  score : Int
  payload : qdrantPayload
deriving Repr, DecidableEq

/-- Go struct `qdrantResponse`: tags `query`, `collection`, `results`, `count`. -/
structure qdrantResponse where
  query : String
  collection : String
  results : List qdrantResult
  count : Int
deriving Repr, DecidableEq

/-- Go struct `QdrantHealthCheckResponse`: tag `status`. -/
structure QdrantHealthCheckResponse where
  status : String
deriving Repr, DecidableEq

/-- Go struct `qdrantRequest`: `Query string`, `Limit string` (both fields
are string-typed in the source), tags `query` and `limit`. -/
structure qdrantRequest where
  query : String
  limit : String
deriving Repr, DecidableEq

/-- `json.Marshal` of a `qdrantRequest`: both fields serialize as JSON
strings, in struct-field order. -/
def qdrantRequest.toJson (r : qdrantRequest) : Json :=
  Json.obj [("query", Json.str r.query), ("limit", Json.str r.limit)]

/-! ### `encoding/json` decoding into those structs -/

/-- Decode a struct field of Go type `string` from the field list of a JSON
object: missing or `null` keeps the zero value `""`; a non-string value is
an unmarshal type error. -/
def decodeStringField (fs : List (String × Json)) (key : String) :
    Except String String :=
  match fs.lookup key with
  | none => Except.ok ""
  | some Json.null => Except.ok ""
  | some (Json.str s) => Except.ok s
  | some _ => Except.error ("cannot unmarshal field " ++ key ++ " into string")

/-- Decode a struct field of Go type `int` (numbers modelled as `Int`). -/
def decodeIntField (fs : List (String × Json)) (key : String) :
    Except String Int :=
  match fs.lookup key with
  | none => Except.ok 0
  | some Json.null => Except.ok 0
  | some (Json.num n) => Except.ok n
  | some _ => Except.error ("cannot unmarshal field " ++ key ++ " into int")

def zeroPayload : qdrantPayload :=
  { title := "", source := "", chunkIndex := 0, text := "" }

/-- Unmarshal a JSON value into `qdrantPayload` (all four tagged fields). -/
def decodeQdrantPayload : Json → Except String qdrantPayload
  | Json.null => Except.ok zeroPayload
  | Json.obj fs => do
      let title ← decodeStringField fs "title"
      let source ← decodeStringField fs "source"
      let chunkIndex ← decodeIntField fs "chunk_index"
      let text ← decodeStringField fs "text"
      Except.ok { title := title, source := source,
                  chunkIndex := chunkIndex, text := text }
  | _ => Except.error "cannot unmarshal into qdrantPayload"

/-- Decode the nested `payload` field of a result object. -/
def decodePayloadField (fs : List (String × Json)) :
    Except String qdrantPayload :=
  match fs.lookup "payload" with
  | none => Except.ok zeroPayload
  | some j => decodeQdrantPayload j

/-- Unmarshal a JSON value into `qdrantResult`. -/
def decodeQdrantResult : Json → Except String qdrantResult
  | Json.null => Except.ok { id := 0, score := 0, payload := zeroPayload }
  | Json.obj fs => do
      let i ← decodeIntField fs "id"
      let score ← decodeIntField fs "score"
      let payload ← decodePayloadField fs
      Except.ok { id := i, score := score, payload := payload }
  | _ => Except.error "cannot unmarshal into qdrantResult"

/-- Decode the `results` field: a missing or `null` slice stays `nil`
(ranged over as empty); an array decodes elementwise. -/
def decodeResultsField (fs : List (String × Json)) :
    Except String (List qdrantResult) :=
  match fs.lookup "results" with
  | none => Except.ok []
  | some Json.null => Except.ok []
  | some (Json.arr xs) => xs.mapM decodeQdrantResult
  | some _ => Except.error "cannot unmarshal field results into slice"

/-- Unmarshal a JSON value into `qdrantResponse`. -/
def decodeQdrantResponse : Json → Except String qdrantResponse
  | Json.null =>
      Except.ok { query := "", collection := "", results := [], count := 0 }
  | Json.obj fs => do
      let q ← decodeStringField fs "query"
      let coll ← decodeStringField fs "collection"
      let results ← decodeResultsField fs
      let count ← decodeIntField fs "count"
      Except.ok { query := q, collection := coll,
                  results := results, count := count }
  | _ => Except.error "cannot unmarshal into qdrantResponse"

/-- Unmarshal a JSON value into `QdrantHealthCheckResponse`. -/
def decodeHealth : Json → Except String QdrantHealthCheckResponse
  | Json.null => Except.ok { status := "" }
  | Json.obj fs => do
      let s ← decodeStringField fs "status"
      Except.ok { status := s }
  | _ => Except.error "cannot unmarshal into QdrantHealthCheckResponse"

/-! ### Request construction -/

/-- Append the `X-API-Key` header when the `API_KEY` env var is non-empty,
as both Go functions do. -/
def apiHeaders (env : EnvMap) (base : List (String × String)) :
    List (String × String) :=
  if env "API_KEY" = "" then base else base ++ [("X-API-Key", env "API_KEY")]

/-- The GET request `CheckHealth` issues against `QdrantURL + "/health"`. -/
def healthRequest (env : EnvMap) (url : String) : HttpRequest :=
  { method := HttpMethod.get, url := url ++ "/health",
    headers := apiHeaders env [], body := none }

/-- The POST request `Search` issues against `QdrantURL + "/v1/search"`,
carrying the marshalled `qdrantRequest`. -/
def searchRequest (env : EnvMap) (url prompt lim : String) : HttpRequest :=
  { method := HttpMethod.post, url := url ++ "/v1/search",
    headers := apiHeaders env [("Content-Type", "application/json")],
    body := some (qdrantRequest.toJson { query := prompt, limit := lim }) }

/-! ### `CheckHealth` and `Search` -/

/-- Go `CheckHealth(QdrantURL string) error`: GET `/health`, decode the
response, succeed iff the decoded `status` equals `"ok"`. -/
def CheckHealth (env : EnvMap) (net : Net) (url : String) :
    Except String Unit :=
  match net (healthRequest env url) with
  | HttpOutcome.transportError msg =>
      Except.error ("CheckHealth: failed to request qdrant db: " ++ msg)
  | HttpOutcome.response body =>
    match decodeHealth body with
    | Except.error e =>
        Except.error ("ChecktHealth: failed to decode response: " ++ e)
    | Except.ok r =>
      if r.status = "ok" then Except.ok ()
      else Except.error ("CheckHealth: Qdarant is unhealth, Status: " ++ r.status)

/-- The limit `Search` actually uses: the caller's argument, or the
`SEARCH_DEFAULT_LIMIT` env var when the argument is the empty string. -/
def effectiveLimit (env : EnvMap) (limit : String) : String :=
  if limit = "" then env "SEARCH_DEFAULT_LIMIT" else limit

/-- Go `Search(prompt, limit string) ([]string, error)`, paired with the
ordered trace of HTTP requests it issued.  Mirrors the source: resolve the
limit (error when both argument and env default are empty), read
`QDRANT_INGEST_URL` (error when unset), run `CheckHealth`, POST the
marshalled request to `/v1/search`, decode, and project each result's
`Payload.Text` in order. -/
def Search (env : EnvMap) (net : Net) (prompt limit : String) :
    Except String (List String) × List HttpRequest :=
  if effectiveLimit env limit = "" then
    (Except.error "failed to get limit var from env", [])
  else if env "QDRANT_INGEST_URL" = "" then
    (Except.error "failed to get QdrantURL var from env", [])
  else
    match CheckHealth env net (env "QDRANT_INGEST_URL") with
    | Except.error e =>
        (Except.error ("seacrh: Qdrant is unhealth: " ++ e),
         [healthRequest env (env "QDRANT_INGEST_URL")])
    | Except.ok _ =>
      match net (searchRequest env (env "QDRANT_INGEST_URL") prompt
                  (effectiveLimit env limit)) with
      | HttpOutcome.transportError msg =>
          (Except.error ("search: failed to request qdrant db: " ++ msg),
           [healthRequest env (env "QDRANT_INGEST_URL"),
            searchRequest env (env "QDRANT_INGEST_URL") prompt
              (effectiveLimit env limit)])
      | HttpOutcome.response body =>
        match decodeQdrantResponse body with
        | Except.error e =>
            (Except.error ("search: failed to decode qdrant response: " ++ e),
             [healthRequest env (env "QDRANT_INGEST_URL"),
              searchRequest env (env "QDRANT_INGEST_URL") prompt
                (effectiveLimit env limit)])
        | Except.ok resp =>
            (Except.ok (resp.results.map fun r => r.payload.text),
             [healthRequest env (env "QDRANT_INGEST_URL"),
              searchRequest env (env "QDRANT_INGEST_URL") prompt
                (effectiveLimit env limit)])

/-! ### `dual_error.go` -/

/-- Model of a Go `error` value: what its `Error()` method returns. -/
structure GoError where
  msg : String
deriving Repr, DecidableEq

def SearchFailedErr : String := "QDRANT_FAILED"
def LLMTimeoutErr : String := "LLM_TIMEOUT"
def LLMUnavailableErr : String := "LLM_UNAVAILABLE"
def LLMUnhealthErr : String := "LLM_UNHEALTH"
def PSQLFailedErr : String := "POSTGRES_FAILED"
def NothingFoundErr : String := "NOTHING_FOUND"
def CoreUnavailableErr : String := "CORE_UNAVAILABLE"

def searchFailedMsg : String := "Не удалось выполнить поиск. Попробуйте позже."
def lLMTimeoutMsg : String := "Сервис сейчас очень нагружен. Попробуйте позже."
def lLMUnavailableMsg : String := "Не удалось выполнить запрос. Попробуйте позже."
def lLMUnhealthMsg : String := "Ой, кажется что-то сломалось. Скоро все починим!"
def psqlFailedMsg : String := "Не удалось отправить отзыв. Попробуйте позже."
def nothingFoundMsg : String :=
  "Не удалось найти информацию по вашему запросу. Попробуйте переформулировать вопрос."
def CoreUnavailableMsg : String := "Не удалось выполнить запрос. Попробуйте позже"

/-- The `messages` map of `dual_error.go`, code → public message. -/
def messages : List (String × String) :=
  [(SearchFailedErr, searchFailedMsg),
   (LLMTimeoutErr, lLMTimeoutMsg),
   (LLMUnavailableErr, lLMUnavailableMsg),
   (LLMUnhealthErr, lLMUnhealthMsg),
   (PSQLFailedErr, psqlFailedMsg),
   (NothingFoundErr, nothingFoundMsg),
   (CoreUnavailableErr, CoreUnavailableMsg)]

/-- Go map indexing `messages[code]`: a missing key yields the zero value "". -/
def messagesLookup (code : String) : String :=
  (messages.lookup code).getD ""

structure PublicError where
  code : String
  message : String
deriving Repr, DecidableEq

structure dualError where
  internal : GoError
  public : PublicError
deriving Repr, DecidableEq

/-- Go `NewDualError(err error, code string) DualError`. -/
def NewDualError (err : GoError) (code : String) : dualError :=
  { internal := err,
    public := { code := code, message := messagesLookup code } }

/-- Go `(e *dualError) Error() string`. -/
def dualError.Error (e : dualError) : String := e.internal.msg

/-- Go `(e *dualError) Public() string`. -/
def dualError.Public (e : dualError) : String := e.public.message

/-- Go `(e *dualError) Internal() error`. -/
def dualError.Internal (e : dualError) : GoError := e.internal

/-! ### Concrete fixtures used by witnesses and counterexamples -/

/-- An environment with the two variables `Search` reads set to concrete
values (`QDRANT_INGEST_URL`, `SEARCH_DEFAULT_LIMIT`), everything else unset. -/
def envC : EnvMap := fun k =>
  if k = "QDRANT_INGEST_URL" then "http://qdrant_ingest:8080"
  else if k = "SEARCH_DEFAULT_LIMIT" then "2"
  else ""

/-- A healthy `/health` body: `{"status": "ok"}`. -/
def healthyBody : Json := Json.obj [("status", Json.str "ok")]

/-- A search response with zero results (empty corpus). -/
def emptyResultsBody : Json :=
  Json.obj [("query", Json.str "алгоритм дейкстры"),
            ("collection", Json.str "latex_books"),
            ("results", Json.arr []),
            ("count", Json.num 0)]

/-- A search result object with all four payload contract fields. -/
def resultBody (i : Int) (text : String) : Json :=
  Json.obj [("id", Json.num i),
            ("score", Json.num 1),
            ("payload", Json.obj [("title", Json.str "t"),
                                  ("source", Json.str "s"),
                                  ("chunk_index", Json.num i),
                                  ("text", Json.str text)])]

/-- A search response carrying two results. -/
def twoResultsBody : Json :=
  Json.obj [("query", Json.str "q"),
            ("collection", Json.str "latex_books"),
            ("results", Json.arr [resultBody 0 "textA", resultBody 1 "textB"]),
            ("count", Json.num 2)]

/-- A network where the health endpoint is healthy and every POST answers
with the empty-corpus search response. -/
def netEmptyCorpus : Net := fun r =>
  match r.method with
  | HttpMethod.get => HttpOutcome.response healthyBody
  | HttpMethod.post => HttpOutcome.response emptyResultsBody

/-- A network where the health endpoint is healthy and every POST answers
with two results. -/
def netTwoResults : Net := fun r =>
  match r.method with
  | HttpMethod.get => HttpOutcome.response healthyBody
  | HttpMethod.post => HttpOutcome.response twoResultsBody

/-- A network where the health endpoint is healthy but the search POST
fails at the transport level. -/
def netSearchDown : Net := fun r =>
  match r.method with
  | HttpMethod.get => HttpOutcome.response healthyBody
  | HttpMethod.post => HttpOutcome.transportError "connection refused"

/-- A network where every request fails at the transport level. -/
def netAllDown : Net := fun _ => HttpOutcome.transportError "connection refused"

/-! ### Helper lemmas characterizing the branches of `Search` -/

/-- `true` exactly on POST requests aimed at the `/v1/search` endpoint of
the given base URL. -/
def isSearchEndpointRequest (url : String) (r : HttpRequest) : Bool :=
  (match r.method with
   | HttpMethod.post => true
   | HttpMethod.get => false)
  && (r.url == url ++ "/v1/search")

theorem isSearchEndpointRequest_health (url : String) (env : EnvMap)
    (u : String) : isSearchEndpointRequest url (healthRequest env u) = false := by
  simp [isSearchEndpointRequest, healthRequest]

theorem isSearchEndpointRequest_search (env : EnvMap)
    (url prompt lim : String) :
    isSearchEndpointRequest url (searchRequest env url prompt lim) = true := by
  simp [isSearchEndpointRequest, searchRequest]

/-- The request trace of `Search` is one of three concrete lists: nothing,
the health request alone, or the health request followed by the search
request. -/
theorem Search_trace (env : EnvMap) (net : Net) (prompt lim : String) :
    (Search env net prompt lim).2 = [] ∨
    (Search env net prompt lim).2 =
      [healthRequest env (env "QDRANT_INGEST_URL")] ∨
    (Search env net prompt lim).2 =
      [healthRequest env (env "QDRANT_INGEST_URL"),
       searchRequest env (env "QDRANT_INGEST_URL") prompt
         (effectiveLimit env lim)] := by
  unfold Search
  split
  · exact Or.inl rfl
  · split
    · exact Or.inl rfl
    · split
      · exact Or.inr (Or.inl rfl)
      · split
        · exact Or.inr (Or.inr rfl)
        · split
          · exact Or.inr (Or.inr rfl)
          · exact Or.inr (Or.inr rfl)

/-- Successful run of `Search`: limit and URL resolve, health passes, the
search POST answers, and the body decodes. -/
theorem Search_ok (env : EnvMap) (net : Net) (prompt lim : String)
    (body : Json) (resp : qdrantResponse)
    (hlim : effectiveLimit env lim ≠ "")
    (hurl : env "QDRANT_INGEST_URL" ≠ "")
    (hh : CheckHealth env net (env "QDRANT_INGEST_URL") = Except.ok ())
    (hnet : net (searchRequest env (env "QDRANT_INGEST_URL") prompt
              (effectiveLimit env lim)) = HttpOutcome.response body)
    (hdec : decodeQdrantResponse body = Except.ok resp) :
    Search env net prompt lim =
      (Except.ok (resp.results.map fun r => r.payload.text),
       [healthRequest env (env "QDRANT_INGEST_URL"),
        searchRequest env (env "QDRANT_INGEST_URL") prompt
          (effectiveLimit env lim)]) := by
  unfold Search
  rw [if_neg hlim, if_neg hurl]
  simp only [hh, hnet, hdec]

/-- Failed health check: `Search` stops after the health request. -/
theorem Search_health_error (env : EnvMap) (net : Net) (prompt lim : String)
    (msg : String)
    (hlim : effectiveLimit env lim ≠ "")
    (hurl : env "QDRANT_INGEST_URL" ≠ "")
    (hh : CheckHealth env net (env "QDRANT_INGEST_URL") = Except.error msg) :
    Search env net prompt lim =
      (Except.error ("seacrh: Qdrant is unhealth: " ++ msg),
       [healthRequest env (env "QDRANT_INGEST_URL")]) := by
  unfold Search
  rw [if_neg hlim, if_neg hurl]
  simp only [hh]

/-- Transport failure of the search POST: the error is surfaced at once. -/
theorem Search_transport_error (env : EnvMap) (net : Net)
    (prompt lim msg : String)
    (hlim : effectiveLimit env lim ≠ "")
    (hurl : env "QDRANT_INGEST_URL" ≠ "")
    (hh : CheckHealth env net (env "QDRANT_INGEST_URL") = Except.ok ())
    (hnet : net (searchRequest env (env "QDRANT_INGEST_URL") prompt
              (effectiveLimit env lim)) = HttpOutcome.transportError msg) :
    Search env net prompt lim =
      (Except.error ("search: failed to request qdrant db: " ++ msg),
       [healthRequest env (env "QDRANT_INGEST_URL"),
        searchRequest env (env "QDRANT_INGEST_URL") prompt
          (effectiveLimit env lim)]) := by
  unfold Search
  rw [if_neg hlim, if_neg hurl]
  simp only [hh, hnet]

/-- Decode failure of the search response: the error is surfaced at once. -/
theorem Search_decode_error (env : EnvMap) (net : Net)
    (prompt lim : String) (body : Json) (e : String)
    (hlim : effectiveLimit env lim ≠ "")
    (hurl : env "QDRANT_INGEST_URL" ≠ "")
    (hh : CheckHealth env net (env "QDRANT_INGEST_URL") = Except.ok ())
    (hnet : net (searchRequest env (env "QDRANT_INGEST_URL") prompt
              (effectiveLimit env lim)) = HttpOutcome.response body)
    (hdec : decodeQdrantResponse body = Except.error e) :
    Search env net prompt lim =
      (Except.error ("search: failed to decode qdrant response: " ++ e),
       [healthRequest env (env "QDRANT_INGEST_URL"),
        searchRequest env (env "QDRANT_INGEST_URL") prompt
          (effectiveLimit env lim)]) := by
  unfold Search
  rw [if_neg hlim, if_neg hurl]
  simp only [hh, hnet, hdec]

/-- Extract a field of the JSON object a request carries as its body. -/
def requestBodyField (r : HttpRequest) (key : String) : Option Json :=
  match r.body with
  | some (Json.obj fs) => fs.lookup key
  | _ => none

/-- `true` iff the JSON value is a number. -/
def isJsonNum : Json → Bool
  | Json.num _ => true
  | _ => false

/-- An environment where neither the caller default nor `QDRANT_INGEST_URL`
matters: `SEARCH_DEFAULT_LIMIT` is unset. -/
def envNoLimit : EnvMap := fun k =>
  if k = "QDRANT_INGEST_URL" then "http://qdrant_ingest:8080" else ""

/-! ### Claim theorems -/

/-- Claim C1: a search response that decodes to zero results is a success,
not an error — whenever the run reaches the decode step and the decoded
response has an empty `results` slice, `Search` returns `ok []`. -/
theorem C1_zero_results_is_success (env : EnvMap) (net : Net)
    (prompt lim : String) (body : Json) (resp : qdrantResponse)
    (hlim : effectiveLimit env lim ≠ "")
    (hurl : env "QDRANT_INGEST_URL" ≠ "")
    (hh : CheckHealth env net (env "QDRANT_INGEST_URL") = Except.ok ())
    (hnet : net (searchRequest env (env "QDRANT_INGEST_URL") prompt
              (effectiveLimit env lim)) = HttpOutcome.response body)
    (hdec : decodeQdrantResponse body = Except.ok resp)
    (hres : resp.results = []) :
    (Search env net prompt lim).1 = Except.ok [] := by
  rw [Search_ok env net prompt lim body resp hlim hurl hh hnet hdec]
  simp [hres]

/-- Claim C1 witness: the spec scenario — query "алгоритм дейкстры",
limit 5, empty corpus — yields an empty hit list and no error. -/
theorem C1_zero_results_is_success_witness :
    (Search envC netEmptyCorpus "алгоритм дейкстры" "5").1 = Except.ok [] :=
  C1_zero_results_is_success envC netEmptyCorpus "алгоритм дейкстры" "5"
    emptyResultsBody
    { query := "алгоритм дейкстры", collection := "latex_books",
      results := [], count := 0 }
    (by decide) (by decide) (by rfl) (by rfl) (by rfl) (by rfl)

/-- Claim C2 counterexample: with limit "1", `Search` still returns every
result the response carries — here two hits, refuting
`len(search(query, limit=k)) ≤ k`.  The client never truncates. -/
theorem C2_limit_not_enforced_counterexample :
    (Search envC netTwoResults "q" "1").1 = Except.ok ["textA", "textB"] ∧
    1 < (["textA", "textB"] : List String).length := by
  exact ⟨rfl, by decide⟩

/-- Claim C2 (amended): the number of hits `Search` returns equals the
number of results in the decoded response — the requested limit is only
forwarded to the remote endpoint, never enforced client-side, so the
`≤ k` bound holds only if the endpoint honours it. -/
theorem C2_hit_count_equals_response_count (env : EnvMap) (net : Net)
    (prompt lim : String) (body : Json) (resp : qdrantResponse)
    (hlim : effectiveLimit env lim ≠ "")
    (hurl : env "QDRANT_INGEST_URL" ≠ "")
    (hh : CheckHealth env net (env "QDRANT_INGEST_URL") = Except.ok ())
    (hnet : net (searchRequest env (env "QDRANT_INGEST_URL") prompt
              (effectiveLimit env lim)) = HttpOutcome.response body)
    (hdec : decodeQdrantResponse body = Except.ok resp) :
    ∀ hits, (Search env net prompt lim).1 = Except.ok hits →
      hits.length = resp.results.length := by
  intro hits hres
  rw [Search_ok env net prompt lim body resp hlim hurl hh hnet hdec] at hres
  simp only [Except.ok.injEq] at hres
  rw [← hres, List.length_map]

/-- Claim C2 witness: at limit "1" with a two-result response, the hit
count equals the response's result count (2). -/
theorem C2_hit_count_equals_response_count_witness :
    (["textA", "textB"] : List String).length = 2 ∧
    (2 : Nat) =
      [resultBody 0 "textA", resultBody 1 "textB"].length := by
  have h := C2_hit_count_equals_response_count envC netTwoResults "q" "1"
    twoResultsBody
    { query := "q", collection := "latex_books",
      results := [{ id := 0, score := 1,
                    payload := { title := "t", source := "s",
                                 chunkIndex := 0, text := "textA" } },
                  { id := 1, score := 1,
                    payload := { title := "t", source := "s",
                                 chunkIndex := 1, text := "textB" } }],
      count := 2 }
    (by decide) (by decide) (by rfl) (by rfl) (by rfl)
    ["textA", "textB"] (by rfl)
  exact ⟨h, by decide⟩

/-- Claim C3 counterexample: the request `Search` actually issues to
`/v1/search` encodes the `limit` field as a JSON *string* (`"5"`), not an
integer — `qdrantRequest.Limit` is string-typed in the source. -/
theorem C3_limit_encoded_as_string_counterexample :
    ((Search envC netTwoResults "q" "5").2.map
        fun r => requestBodyField r "limit") =
      [none, some (Json.str "5")] ∧
    ((Search envC netTwoResults "q" "5").2.map
        fun r => (requestBodyField r "limit").map isJsonNum) =
      [none, some false] := by
  exact ⟨rfl, rfl⟩

/-- Claim C3 (amended): the request body carries the limit as a JSON
string; an empty caller limit falls back to the `SEARCH_DEFAULT_LIMIT`
configured default; and when that default is also unset, `Search` fails
before issuing any request. -/
theorem C3_limit_string_and_default (env : EnvMap) (net : Net)
    (url prompt lim : String) :
    requestBodyField (searchRequest env url prompt lim) "limit" =
      some (Json.str lim) ∧
    effectiveLimit env "" = env "SEARCH_DEFAULT_LIMIT" ∧
    (effectiveLimit env lim = "" →
      Search env net prompt lim =
        (Except.error "failed to get limit var from env", [])) := by
  refine ⟨rfl, rfl, fun h => ?_⟩
  unfold Search
  rw [if_pos h]

/-- Claim C3 witness: with `SEARCH_DEFAULT_LIMIT` unset and an empty caller
limit, `Search` errors with no network traffic; and a concrete request
encodes its limit as the JSON string "5". -/
theorem C3_limit_string_and_default_witness :
    requestBodyField (searchRequest envNoLimit "http://qdrant_ingest:8080"
        "q" "5") "limit" = some (Json.str "5") ∧
    Search envNoLimit netAllDown "q" "" =
      (Except.error "failed to get limit var from env", []) :=
  ⟨(C3_limit_string_and_default envNoLimit netAllDown
      "http://qdrant_ingest:8080" "q" "5").1,
   (C3_limit_string_and_default envNoLimit netAllDown
      "http://qdrant_ingest:8080" "q" "").2.2 (by rfl)⟩

/-- Claim C4: the health check has one unambiguous contract — `CheckHealth`
succeeds exactly when the request succeeds, the body decodes, and the
decoded `status` equals "ok"; in every other case (other status value,
transport failure, decode failure) it returns an error. -/
theorem C4_health_contract (env : EnvMap) (net : Net) (url : String) :
    CheckHealth env net url = Except.ok () ↔
    ∃ body r, net (healthRequest env url) = HttpOutcome.response body ∧
      decodeHealth body = Except.ok r ∧ r.status = "ok" := by
  constructor
  · intro h
    unfold CheckHealth at h
    split at h
    · exact absurd h (by simp)
    · rename_i body hn
      split at h
      · exact absurd h (by simp)
      · rename_i r hd
        by_cases hs : r.status = "ok"
        · exact ⟨body, r, hn, hd, hs⟩
        · rw [if_neg hs] at h; exact absurd h (by simp)
  · rintro ⟨body, r, hn, hd, hs⟩
    unfold CheckHealth
    rw [hn]
    simp only [hd, hs]
    simp

/-- Claim C5 counterexample: the empty query is *not* rejected — `Search`
issues both the health request and the search request for it and returns
a successful (empty) hit list; no `EmptyQueryError` exists in the code. -/
theorem C5_empty_query_not_rejected_counterexample :
    (Search envC netEmptyCorpus "" "").1 = Except.ok [] ∧
    (Search envC netEmptyCorpus "" "").2.length = 2 :=
  ⟨rfl, rfl⟩

/-- Claim C5 (amended): `Search` performs no query validation at all — an
empty or whitespace-only query flows through unchanged: given a resolvable
limit and URL, a passing health check and a decodable response, `Search`
issues the health request and the search request (with the blank query in
the body) and succeeds. -/
theorem C5_no_query_validation (env : EnvMap) (net : Net)
    (prompt lim : String) (body : Json) (resp : qdrantResponse)
    (_hblank : prompt.toList.all Char.isWhitespace = true)
    (hlim : effectiveLimit env lim ≠ "")
    (hurl : env "QDRANT_INGEST_URL" ≠ "")
    (hh : CheckHealth env net (env "QDRANT_INGEST_URL") = Except.ok ())
    (hnet : net (searchRequest env (env "QDRANT_INGEST_URL") prompt
              (effectiveLimit env lim)) = HttpOutcome.response body)
    (hdec : decodeQdrantResponse body = Except.ok resp) :
    Search env net prompt lim =
      (Except.ok (resp.results.map fun r => r.payload.text),
       [healthRequest env (env "QDRANT_INGEST_URL"),
        searchRequest env (env "QDRANT_INGEST_URL") prompt
          (effectiveLimit env lim)]) :=
  Search_ok env net prompt lim body resp hlim hurl hh hnet hdec

/-- Claim C5 witness: the empty query, with the default limit "2", goes
over the network and succeeds with an empty hit list. -/
theorem C5_no_query_validation_witness :
    Search envC netEmptyCorpus "" "" =
      (Except.ok [],
       [healthRequest envC "http://qdrant_ingest:8080",
        searchRequest envC "http://qdrant_ingest:8080" "" "2"]) :=
  C5_no_query_validation envC netEmptyCorpus "" "" emptyResultsBody
    { query := "алгоритм дейкстры", collection := "latex_books",
      results := [], count := 0 }
    (by decide) (by decide) (by decide) (by rfl) (by rfl) (by rfl)

/-- Claim C6: one invocation of `Search` sends at most one request to the
`/v1/search` endpoint, and both a transport failure of that request and a
decode failure of its response surface immediately as the returned error —
no internal retry. -/
theorem C6_single_search_request (env : EnvMap) (net : Net)
    (prompt lim : String) :
    ((Search env net prompt lim).2.filter
        (isSearchEndpointRequest (env "QDRANT_INGEST_URL"))).length ≤ 1 ∧
    (∀ msg, effectiveLimit env lim ≠ "" → env "QDRANT_INGEST_URL" ≠ "" →
      CheckHealth env net (env "QDRANT_INGEST_URL") = Except.ok () →
      net (searchRequest env (env "QDRANT_INGEST_URL") prompt
            (effectiveLimit env lim)) = HttpOutcome.transportError msg →
      (Search env net prompt lim).1 =
        Except.error ("search: failed to request qdrant db: " ++ msg)) ∧
    (∀ body e, effectiveLimit env lim ≠ "" → env "QDRANT_INGEST_URL" ≠ "" →
      CheckHealth env net (env "QDRANT_INGEST_URL") = Except.ok () →
      net (searchRequest env (env "QDRANT_INGEST_URL") prompt
            (effectiveLimit env lim)) = HttpOutcome.response body →
      decodeQdrantResponse body = Except.error e →
      (Search env net prompt lim).1 =
        Except.error ("search: failed to decode qdrant response: " ++ e)) := by
  refine ⟨?_, ?_, ?_⟩
  · rcases Search_trace env net prompt lim with h | h | h <;> rw [h]
    · simp
    · simp [isSearchEndpointRequest_health]
    · simp [List.filter, isSearchEndpointRequest_health,
            isSearchEndpointRequest_search]
  · intro msg hlim hurl hh hnet
    rw [Search_transport_error env net prompt lim msg hlim hurl hh hnet]
  · intro body e hlim hurl hh hnet hdec
    rw [Search_decode_error env net prompt lim body e hlim hurl hh hnet hdec]

/-- Claim C6 witness: with a healthy index whose search endpoint refuses
connections, `Search` returns the transport error at once; the request
bound applies to the same run. -/
theorem C6_single_search_request_witness :
    ((Search envC netSearchDown "q" "").2.filter
        (isSearchEndpointRequest "http://qdrant_ingest:8080")).length ≤ 1 ∧
    (Search envC netSearchDown "q" "").1 =
      Except.error "search: failed to request qdrant db: connection refused" :=
  ⟨(C6_single_search_request envC netSearchDown "q" "").1,
   (C6_single_search_request envC netSearchDown "q" "").2.1
     "connection refused" (by decide) (by decide) (by rfl) (by rfl)⟩

/-- Claim C7: the point payload exposes the four contract fields — title,
source id, sequential chunk position, chunk text — and decoding a search
result reads all four from its `payload` object into the corresponding
struct fields. -/
theorem C7_payload_four_fields (t s : String) (n : Int) (x : String)
    (i sc : Int) :
    decodeQdrantPayload
        (Json.obj [("title", Json.str t), ("source", Json.str s),
                   ("chunk_index", Json.num n), ("text", Json.str x)]) =
      Except.ok { title := t, source := s, chunkIndex := n, text := x } ∧
    decodeQdrantResult
        (Json.obj [("id", Json.num i), ("score", Json.num sc),
                   ("payload",
                    Json.obj [("title", Json.str t), ("source", Json.str s),
                              ("chunk_index", Json.num n),
                              ("text", Json.str x)])]) =
      Except.ok { id := i, score := sc,
                  payload := { title := t, source := s,
                               chunkIndex := n, text := x } } :=
  ⟨rfl, rfl⟩

/-- Claim C8: the hit list is an order-preserving projection of the decoded
response — exactly the `results` list mapped to each result's payload
text, dropping titles, sources, scores and chunk indexes. -/
theorem C8_hits_are_payload_texts_in_order (env : EnvMap) (net : Net)
    (prompt lim : String) (body : Json) (resp : qdrantResponse)
    (hlim : effectiveLimit env lim ≠ "")
    (hurl : env "QDRANT_INGEST_URL" ≠ "")
    (hh : CheckHealth env net (env "QDRANT_INGEST_URL") = Except.ok ())
    (hnet : net (searchRequest env (env "QDRANT_INGEST_URL") prompt
              (effectiveLimit env lim)) = HttpOutcome.response body)
    (hdec : decodeQdrantResponse body = Except.ok resp) :
    (Search env net prompt lim).1 =
      Except.ok (resp.results.map fun r => r.payload.text) := by
  rw [Search_ok env net prompt lim body resp hlim hurl hh hnet hdec]

/-- Claim C8 witness: a two-result response yields exactly its two payload
texts, in response order. -/
theorem C8_hits_are_payload_texts_in_order_witness :
    (Search envC netTwoResults "q" "1").1 = Except.ok ["textA", "textB"] := by
  have h := C8_hits_are_payload_texts_in_order envC netTwoResults "q" "1"
    twoResultsBody
    { query := "q", collection := "latex_books",
      results := [{ id := 0, score := 1,
                    payload := { title := "t", source := "s",
                                 chunkIndex := 0, text := "textA" } },
                  { id := 1, score := 1,
                    payload := { title := "t", source := "s",
                                 chunkIndex := 1, text := "textB" } }],
      count := 2 }
    (by decide) (by decide) (by rfl) (by rfl) (by rfl)
  exact h

/-- Claim C9: the public message of a dual error depends only on the error
code — it is the `messages` table entry for that code — so any two dual
errors built with the same code have identical `Public()` output, whatever
their internal errors say. -/
theorem C9_public_message_depends_only_on_code (e₁ e₂ : GoError)
    (code : String) :
    dualError.Public (NewDualError e₁ code) = messagesLookup code ∧
    dualError.Public (NewDualError e₁ code) =
      dualError.Public (NewDualError e₂ code) :=
  ⟨rfl, rfl⟩

/-- Claim C10: `Search` never contacts `/v1/search` without a successful
health check in the same call — whenever `CheckHealth` returns an error,
`Search` returns an error and its trace contains no search-endpoint
request. -/
theorem C10_health_gates_search (env : EnvMap) (net : Net)
    (prompt lim msg : String)
    (hh : CheckHealth env net (env "QDRANT_INGEST_URL") = Except.error msg) :
    (∃ e, (Search env net prompt lim).1 = Except.error e) ∧
    (Search env net prompt lim).2.filter
        (isSearchEndpointRequest (env "QDRANT_INGEST_URL")) = [] := by
  unfold Search
  split
  · exact ⟨⟨_, rfl⟩, rfl⟩
  · split
    · exact ⟨⟨_, rfl⟩, rfl⟩
    · simp only [hh]
      exact ⟨⟨_, rfl⟩, by simp [List.filter, isSearchEndpointRequest_health]⟩

/-- Claim C10 witness: with the whole network down, the health check fails,
`Search` returns an error, and no request ever targets `/v1/search`. -/
theorem C10_health_gates_search_witness :
    (∃ e, (Search envC netAllDown "q" "").1 = Except.error e) ∧
    (Search envC netAllDown "q" "").2.filter
        (isSearchEndpointRequest "http://qdrant_ingest:8080") = [] :=
  C10_health_gates_search envC netAllDown "q" ""
    "CheckHealth: failed to request qdrant db: connection refused" (by rfl)

end WiseTask
